import Mathlib

/-!
Verification of the `indian-diet-planner` meal-planning core
(`diet_planner.py`) against its natural-language specification.

Modelling conventions (shallow embedding):
* Python floats are modelled as exact rationals (`ℚ`); every quantity the
  program manipulates (calories, grams, prices) stays in ranges where the
  Python code performs plain arithmetic, and the specification states the
  aggregate identities "in exact arithmetic".
* A pandas `DataFrame` of catalog rows is modelled as a `List Food`.
  A cell that is NaN after `pd.to_numeric(..., errors='coerce')`, or a
  missing free-text field, is modelled as `Option.none`; pandas comparisons
  against NaN are false, and `str.contains(..., na=False)` is false on NaN.
* After the coercion step the nutrition columns are numeric, so the
  in-model nutrition cells are plain `ℚ`; the optional `price_inr` cell is
  `Option ℚ` because its NaN case is observable in the budget filter.
* `random.sample`-style draws are modelled by an explicit oracle
  `ℕ → ℕ`: the draw for the loop iteration that starts with attempt
  counter `a` is `oracle a` (the attempt counter strictly increases from
  one iteration to the next, so each iteration gets its own draw).
  All theorems below hold for every oracle.
* The presence of the optional `price_inr` column in the DataFrame is the
  boolean parameter `hasPriceCol` (the source tests
  `"price_inr" in filtered_data.columns`).
-/

/-- Lower-cases a string into its character list; models Python's
`str.lower()` for the substring checks below. -/
def lowerChars (s : String) : List Char := s.toList.map Char.toLower

/-- Substring containment on character lists: `containsSub need hay = true`
iff `need` occurs contiguously inside `hay` (Python's `in` on strings;
an empty needle is contained in everything). -/
def containsSub (need : List Char) : List Char → Bool
  | [] => need.isEmpty
  | c :: t => need.isPrefixOf (c :: t) || containsSub need t

/-- Case-sensitive substring test, Python's `needle in hay`. -/
def strContainsCS (hay needle : String) : Bool :=
  containsSub needle.toList hay.toList

/-- Case-insensitive substring test on an optional text cell: models
`Series.str.contains(needle, case=False, na=False)` on one cell — a NaN
cell (`none`) yields `false`.  (The pandas call interprets the needle as a
regex; all needles used by the program are literal words, for which regex
matching coincides with substring matching.) -/
def strContainsCI (hay : Option String) (needle : String) : Bool :=
  match hay with
  | none => false
  | some h => containsSub (lowerChars needle) (lowerChars h)

/-! ## Energy model (`calculate_bmr`, `calculate_daily_calories`) -/

/-- Mifflin-St Jeor BMR, `diet_planner.py` lines 5-26: linear formula with
a gender-specific intercept (+5 male, −161 female, −78 otherwise). -/
def calculate_bmr (weight height age : ℚ) (gender : String) : ℚ :=
  if gender = "Male" then 10 * weight + 6.25 * height - 5 * age + 5
  else if gender = "Female" then 10 * weight + 6.25 * height - 5 * age - 161
  else 10 * weight + 6.25 * height - 5 * age - 78

/-- The `activity_multiplier` dict of `calculate_daily_calories`; a lookup
with a key outside the dict raises `KeyError` in Python, modelled as
`none`. -/
def activity_multiplier (activity_level : String) : Option ℚ :=
  if activity_level = "Sedentary" then some 1.2
  else if activity_level = "Moderate" then some 1.55
  else if activity_level = "Active" then some 1.9
  else none

/-- Daily calorie needs, `diet_planner.py` lines 28-56: BMR × activity
multiplier, then a goal adjustment (−15% lose, +15% gain). -/
def calculate_daily_calories (bmr : ℚ) (activity_level health_goal : String) :
    Option ℚ :=
  (activity_multiplier activity_level).map (fun m =>
    if health_goal = "Lose Weight" then bmr * m * 0.85
    else if health_goal = "Gain Weight" then bmr * m * 1.15
    else bmr * m)

/-! ## Catalog rows and the food filter (`filter_foods_by_preferences`) -/

/-- One catalog row after numeric coercion.  `allergens` and `meal_type`
are free-text cells that may be NaN; `price_inr` is the optional price
cell whose NaN case the budget filter observes. -/
structure Food where
  food : String
  diet_type : String
  allergens : Option String
  meal_type : Option String
  category : String
  calories : ℚ
  protein : ℚ
  carbs : ℚ
  fats : ℚ
  price_inr : Option ℚ
deriving DecidableEq, Inhabited, Repr

/-- Diet stage of the filter (`diet_planner.py` lines 72-77): Vegan keeps
only Vegan rows, Vegetarian keeps Vegan ∪ Vegetarian rows, anything else
keeps all rows. -/
def dietFiltered (food_data : List Food) (dietary_preference : String) :
    List Food :=
  if dietary_preference = "Vegan" then
    food_data.filter (fun f => f.diet_type == "Vegan")
  else if dietary_preference = "Vegetarian" then
    food_data.filter (fun f => (["Vegan", "Vegetarian"] : List String).contains f.diet_type)
  else food_data

/-- Allergen stage (`diet_planner.py` lines 80-81): one pass per allergen,
dropping rows whose `allergens` cell contains it case-insensitively; NaN
cells never match (`na=False`), so they are never dropped. -/
def allergenFiltered (rows : List Food) (allergies : List String) : List Food :=
  allergies.foldl
    (fun acc allergen => acc.filter (fun f => !(strContainsCI f.allergens allergen)))
    rows

/-- One-cell comparison `price_inr <= c` as pandas evaluates it: false on a
NaN price cell. -/
def priceLeB (f : Food) (c : ℚ) : Bool :=
  match f.price_inr with
  | some p => decide (p ≤ c)
  | none => false

/-- Budget stage (`diet_planner.py` lines 90-97), applied only when the
`price_inr` column exists: Low keeps `price ≤ 15`, Medium keeps
`price ≤ 25`, any other level keeps everything. -/
def budgetFiltered (rows : List Food) (budget_level : String)
    (hasPriceCol : Bool) : List Food :=
  if hasPriceCol then
    if budget_level = "Low" then rows.filter (fun f => priceLeB f 15)
    else if budget_level = "Medium" then rows.filter (fun f => priceLeB f 25)
    else rows
  else rows

/-- `filter_foods_by_preferences` (`diet_planner.py` lines 58-99): diet
stage, then allergen stage, then the numeric-coercion pass (the identity on
rows in this model, whose cells are already coerced), then the budget
stage. -/
def filter_foods_by_preferences (food_data : List Food)
    (dietary_preference : String) (allergies : List String)
    (budget_level : String) (hasPriceCol : Bool) : List Food :=
  budgetFiltered (allergenFiltered (dietFiltered food_data dietary_preference) allergies)
    budget_level hasPriceCol

/-! ## Meal composer (`adjust_portion_for_age`, `select_foods_for_meal`) -/

/-- `adjust_portion_for_age` (`diet_planner.py` lines 101-117): 0.8× under
18, 0.9× over 65, unchanged otherwise. -/
def adjust_portion_for_age (base_portion age : ℚ) : ℚ :=
  if age < 18 then base_portion * 0.8
  else if age > 65 then base_portion * 0.9
  else base_portion

/-- A `SelectedFoodEntry`: one dict appended to `selected_foods`
(`diet_planner.py` lines 244-253).  The source renders the portion as the
display string `f"{adjusted_portion:.0f}g"`; the model keeps the number. -/
structure Entry where
  food : String
  portion : ℚ
  calories : ℚ
  protein : ℚ
  carbs : ℚ
  fats : ℚ
  category : String
  price : ℚ
deriving DecidableEq, Inhabited, Repr

/-- The mutable locals of the selection loop (`diet_planner.py` lines
173-183), plus a ghost field `iters` counting how many times the loop body
has run (it appears in no branch condition). -/
structure LoopState where
  selected_foods : List Entry
  current_calories : ℚ
  protein_sum : ℚ
  carbs_sum : ℚ
  fats_sum : ℚ
  total_cost : ℚ
  selected_categories : List String
  attempts : ℕ
  iters : ℕ
deriving DecidableEq, Repr

/-- Initial loop state: empty selection, zero totals, zero attempts. -/
def initState : LoopState :=
  { selected_foods := [], current_calories := 0, protein_sum := 0
    carbs_sum := 0, fats_sum := 0, total_cost := 0
    selected_categories := [], attempts := 0, iters := 0 }

/-- `max_attempts = 50` (`diet_planner.py` line 182). -/
def max_attempts : ℕ := 50

/-- `DataFrame.sample(1)` from a non-empty pool, driven by the oracle draw
`r`: row `r mod length`.  (On the empty list it returns the default row;
the program never samples an empty pool because `select_foods_for_meal`
falls back to the full filtered catalog.) -/
def sampleRow (l : List Food) (r : ℕ) : Food := l.getD (r % l.length) default

/-- The sampling stage of one loop iteration (`diet_planner.py` lines
186-192): sample from the rows of not-yet-used categories while they exist
and fewer than 5 foods are chosen, otherwise from the whole pool. -/
def chooseFood (meal_foods : List Food) (r : ℕ) (s : LoopState) : Food :=
  let unselected_categories :=
    meal_foods.filter (fun f => !(s.selected_categories.contains f.category))
  if unselected_categories.length > 0 ∧ s.selected_foods.length < 5 then
    sampleRow unselected_categories r
  else sampleRow meal_foods r

/-- The portion stage of one loop iteration (`diet_planner.py` lines
212-223): the portion that would close the remaining calorie gap, capped
at the 100-unit base portion (or the full base portion when the row's
calories are not positive), then age-adjusted. -/
def portionFor (food : Food) (target_calories : ℚ) (s : LoopState) (age : ℚ) : ℚ :=
  let base_portion : ℚ := 100
  let remaining_calories := target_calories - s.current_calories
  let target_portion :=
    if food.calories > 0 then
      min base_portion (remaining_calories / food.calories * base_portion)
    else base_portion
  adjust_portion_for_age target_portion age

/-- The `SelectedFoodEntry` built for an accepted food (`diet_planner.py`
lines 230-253): macros and price scaled linearly by the portion factor
(price additionally divided by 100, as in the source). -/
def scaledEntry (food : Food) (adjusted_portion : ℚ) : Entry :=
  let portion_factor := adjusted_portion / 100
  { food := food.food
    portion := adjusted_portion
    calories := food.calories * portion_factor
    protein := food.protein * portion_factor
    carbs := food.carbs * portion_factor
    fats := food.fats * portion_factor
    category := food.category
    price := food.price_inr.getD 0 * portion_factor / 100 }

/-- The acceptance stage (`diet_planner.py` lines 243-261): append the
scaled entry and update the running totals and used categories. -/
def acceptFood (s : LoopState) (food : Food) (adjusted_portion : ℚ) : LoopState :=
  let e := scaledEntry food adjusted_portion
  { s with
    selected_foods := s.selected_foods ++ [e]
    current_calories := s.current_calories + e.calories
    protein_sum := s.protein_sum + e.protein
    carbs_sum := s.carbs_sum + e.carbs
    fats_sum := s.fats_sum + e.fats
    total_cost := s.total_cost + e.price
    selected_categories := s.selected_categories.insert food.category }

/-- One body execution of the `while` loop of `select_foods_for_meal`
(`diet_planner.py` lines 186-265), without the trailing `attempts += 1`:
sample a row (preferring unused categories while fewer than 5 foods are
chosen), compute the age-adjusted portion, skip if it is below 10 units,
skip if adding the scaled calories overshoots 110% of target, otherwise
accept the entry.  Returns the updated state and whether the
early-success `break` (at ≥ 90% of target with ≥ 3 foods, or 5 foods)
fires. -/
def loopStep (meal_foods : List Food) (target_calories age : ℚ) (r : ℕ)
    (s : LoopState) : LoopState × Bool :=
  let food := chooseFood meal_foods r s
  let adjusted_portion := portionFor food target_calories s age
  if adjusted_portion < 10 then (s, false)
  else if s.current_calories + (scaledEntry food adjusted_portion).calories >
      target_calories * 1.1 then (s, false)
  else
    let s1 := acceptFood s food adjusted_portion
    if (s1.current_calories ≥ target_calories * 0.9 ∧ s1.selected_foods.length ≥ 3)
        ∨ s1.selected_foods.length ≥ 5 then (s1, true)
    else (s1, false)

/-- The selection `while` loop (`diet_planner.py` line 185): run while
`current_calories < target_calories and attempts < max_attempts`; a body
execution that does not `break` increments `attempts`; the ghost `iters`
counts body executions. -/
def selectLoop (meal_foods : List Food) (target_calories age : ℚ)
    (oracle : ℕ → ℕ) (s : LoopState) : LoopState :=
  if h : s.current_calories < target_calories ∧ s.attempts < max_attempts then
    match loopStep meal_foods target_calories age (oracle s.attempts) s with
    | (s1, true) => { s1 with iters := s.iters + 1 }
    | (s1, false) =>
        selectLoop meal_foods target_calories age oracle
          { s1 with attempts := s.attempts + 1, iters := s.iters + 1 }
  else s
termination_by max_attempts - s.attempts
decreasing_by simp only [max_attempts] at *; omega

/-- Meal-type sub-filter (`diet_planner.py` line 141): keep rows whose
`meal_type` cell contains the requested type, case-insensitively; NaN
cells never match. -/
def mealTypeFiltered (rows : List Food) (meal_type : String) : List Food :=
  rows.filter (fun f => strContainsCI f.meal_type meal_type)

/-- The curated Indian keyword list (`diet_planner.py` lines 150-153). -/
def indian_foods : List String :=
  ["Paratha", "Roti", "Chapati", "Dal", "Paneer", "Curry", "Bhaji",
   "Samosa", "Idli", "Dosa", "Chutney", "Raita", "Lassi", "Pulao",
   "Khichdi", "Upma", "Poha", "Uttapam", "Vada", "Sambar", "Rasam",
   "Bhindi", "Baingan", "Bharta", "Aloo", "Gobi", "Methi", "Palak"]

/-- `is_indian_food` (`diet_planner.py` lines 156-157): the food name
contains some Indian keyword, case-insensitively. -/
def is_indian_food (food_name : String) : Bool :=
  indian_foods.any (fun keyword =>
    containsSub (lowerChars keyword) (lowerChars food_name))

/-- Numeric value of the derived `is_indian` flag column, used as the
primary descending sort key. -/
def indianRank (f : Food) : ℕ := if is_indian_food f.food then 1 else 0

/-- The `sort_values` calls of `select_foods_for_meal` (`diet_planner.py`
lines 162-170): with Indian regional preference, sort flagged rows first
(then by descending protein when Active); otherwise sort by descending
protein only when Active. -/
def sortMealFoods (rows : List Food) (regional_preference activity_level : String) :
    List Food :=
  if regional_preference = "Indian" then
    if activity_level = "Active" then
      rows.mergeSort (fun f g =>
        indianRank g < indianRank f ∨ (indianRank g = indianRank f ∧ g.protein ≤ f.protein))
    else rows.mergeSort (fun f g => indianRank g ≤ indianRank f)
  else if activity_level = "Active" then
    rows.mergeSort (fun f g => g.protein ≤ f.protein)
  else rows

/-- The `macros` sub-dict of the returned meal. -/
structure Macros where
  protein : ℚ
  carbs : ℚ
  fats : ℚ
deriving DecidableEq, Repr

/-- The dict returned by `select_foods_for_meal` (`diet_planner.py` lines
270-279). -/
structure MealResult where
  foods : List Entry
  calories : ℚ
  macros : Macros
  cost : ℚ
deriving DecidableEq, Repr

/-- `select_foods_for_meal` (`diet_planner.py` lines 119-279): coerce
numerics (identity here), sub-filter by meal type falling back to the full
catalog when empty, apply the regional/activity sort, then run the
selection loop from the empty state and package the totals. -/
def select_foods_for_meal (filtered_foods : List Food) (target_calories : ℚ)
    (meal_type : String) (age : ℚ) (activity_level regional_preference : String)
    (oracle : ℕ → ℕ) : MealResult :=
  let mf0 := mealTypeFiltered filtered_foods meal_type
  let mf1 := if mf0.length = 0 then filtered_foods else mf0
  let meal_foods := sortMealFoods mf1 regional_preference activity_level
  let fin := selectLoop meal_foods target_calories age oracle initState
  { foods := fin.selected_foods
    calories := fin.current_calories
    macros := { protein := fin.protein_sum, carbs := fin.carbs_sum, fats := fin.fats_sum }
    cost := fin.total_cost }

/-- Ghost observation: how many times the selection loop body runs during
one `select_foods_for_meal` call. -/
def selectIters (filtered_foods : List Food) (target_calories : ℚ)
    (meal_type : String) (age : ℚ) (activity_level regional_preference : String)
    (oracle : ℕ → ℕ) : ℕ :=
  let mf0 := mealTypeFiltered filtered_foods meal_type
  let mf1 := if mf0.length = 0 then filtered_foods else mf0
  let meal_foods := sortMealFoods mf1 regional_preference activity_level
  (selectLoop meal_foods target_calories age oracle initState).iters

/-! ## Plan assembler (`generate_diet_plan`) -/

/-- Meal calorie distribution by age bracket (`diet_planner.py` lines
306-332), in Python dict insertion order. -/
def meal_distribution (age : ℚ) : List (String × ℚ) :=
  if age < 18 then
    [("Breakfast", 0.25), ("Lunch", 0.3), ("Dinner", 0.25),
     ("Snack 1", 0.1), ("Snack 2", 0.1)]
  else if age > 65 then
    [("Breakfast", 0.2), ("Morning Snack", 0.1), ("Lunch", 0.25),
     ("Afternoon Snack", 0.1), ("Dinner", 0.25), ("Evening Snack", 0.1)]
  else
    [("Breakfast", 0.2), ("Lunch", 0.35), ("Evening Snack", 0.15),
     ("Dinner", 0.3)]

/-- Slot-name to meal-type mapping (`diet_planner.py` lines 342-349):
first of Breakfast/Lunch/Dinner contained in the name, else Snack. -/
def mealTypeOf (meal_name : String) : String :=
  if strContainsCS meal_name "Breakfast" then "Breakfast"
  else if strContainsCS meal_name "Lunch" then "Lunch"
  else if strContainsCS meal_name "Dinner" then "Dinner"
  else "Snack"

/-- The dict returned by `generate_diet_plan`: one meal per slot plus the
accumulated total cost. -/
structure DietPlan where
  meals : List (String × MealResult)
  total_cost : ℚ
deriving DecidableEq, Repr

/-- `generate_diet_plan` (`diet_planner.py` lines 281-366): filter the
catalog once; `None` when the filtered catalog is empty; otherwise one
`select_foods_for_meal` call per distribution slot, summing costs.  The
oracle is keyed by slot name (slot names within one distribution are
distinct). -/
def generate_diet_plan (food_data : List Food) (hasPriceCol : Bool)
    (daily_calories age : ℚ) (dietary_preference : String)
    (allergies : List String) (activity_level budget_level regional_preference : String)
    (oracle : String → ℕ → ℕ) : Option DietPlan :=
  let filtered_foods :=
    filter_foods_by_preferences food_data dietary_preference allergies
      budget_level hasPriceCol
  if filtered_foods.length = 0 then none
  else
    let meals := (meal_distribution age).map (fun slot =>
      (slot.1,
        select_foods_for_meal filtered_foods (daily_calories * slot.2)
          (mealTypeOf slot.1) age activity_level regional_preference (oracle slot.1)))
    some { meals := meals, total_cost := (meals.map (fun m => m.2.cost)).sum }

/-! ## Catalog-mutation model for the frame claim

The pandas code can mutate the DataFrame object handed to
`generate_diet_plan`: `filter_foods_by_preferences` returns `food_data`
itself (no copy) when the dietary preference is neither Vegan nor
Vegetarian, the allergy list is empty, and the budget stage does not
rebuild the frame (no price column, or a budget other than Low/Medium);
and `select_foods_for_meal` assigns the derived `is_indian` flag column to
`meal_foods`, which is that same object whenever the meal-type sub-filter
is empty (the `meal_foods = filtered_foods` fallback).  The numeric
`pd.to_numeric` assignments also write through the alias; on the
already-numeric cells of this model they are the identity, so the
observable mutation is the added column, tracked by `hasIsIndianCol`. -/
structure Catalog where
  rows : List Food
  hasPriceCol : Bool
  hasIsIndianCol : Bool
deriving DecidableEq, Repr

/-- Whether `filter_foods_by_preferences` hands back the very DataFrame
object it was given (every stage taken through a non-copying branch). -/
def filterReturnsAlias (dietary_preference : String) (allergies : List String)
    (budget_level : String) (hasPriceCol : Bool) : Bool :=
  !(dietary_preference == "Vegan") && !(dietary_preference == "Vegetarian")
    && allergies.isEmpty
    && !(hasPriceCol && (budget_level == "Low" || budget_level == "Medium"))

/-- Effect of one `select_foods_for_meal` call on the shared catalog
object: the `is_indian` column is written onto it exactly when the
filtered frame it received is the catalog itself, the regional preference
is Indian, and the meal-type sub-filter is empty so that `meal_foods`
falls back to that aliased frame (`diet_planner.py` lines 141-160). -/
def select_foods_effect (cat : Catalog) (filteredRows : List Food)
    (aliased : Bool) (meal_type regional_preference : String) : Catalog :=
  if aliased && regional_preference == "Indian"
      && (mealTypeFiltered filteredRows meal_type).isEmpty then
    { cat with hasIsIndianCol := true }
  else cat

/-- Effect of one `generate_diet_plan` call on the shared catalog object:
the per-slot `select_foods_for_meal` effects in slot order (no effect at
all when the filtered catalog is empty, since no composer call is made). -/
def generate_diet_plan_effect (cat : Catalog) (age : ℚ)
    (dietary_preference : String) (allergies : List String)
    (budget_level regional_preference : String) : Catalog :=
  let filtered :=
    filter_foods_by_preferences cat.rows dietary_preference allergies
      budget_level cat.hasPriceCol
  if filtered.length = 0 then cat
  else
    (meal_distribution age).foldl (fun c slot =>
      select_foods_effect c filtered
        (filterReturnsAlias dietary_preference allergies budget_level cat.hasPriceCol)
        (mealTypeOf slot.1) regional_preference) cat

/-! ## Concrete rows and catalogs used by witnesses and counterexamples -/

/-- A sample catalog row with full data. -/
def appleRow : Food :=
  { food := "Apple", diet_type := "Vegan", allergens := none, meal_type := none
    category := "Fruit", calories := 52, protein := 0.3, carbs := 14, fats := 0.2
    price_inr := some 20 }

/-- A catalog row whose price cell is NaN after coercion. -/
def mysteryRow : Food :=
  { food := "Mystery", diet_type := "Vegan", allergens := none, meal_type := none
    category := "Misc", calories := 100, protein := 5, carbs := 10, fats := 2
    price_inr := none }

/-- A one-row catalog without a price column, as handed to
`generate_diet_plan`. -/
def staleCatalog : Catalog :=
  { rows := [mysteryRow], hasPriceCol := false, hasIsIndianCol := false }

/-! ## Helper lemmas about one loop body execution -/

/-- Sum of one scaled field over the selected entries. -/
def sumBy (g : Entry → ℚ) (l : List Entry) : ℚ := (l.map g).sum

/-- The running totals agree with the sums over the selected entries. -/
def Synced (s : LoopState) : Prop :=
  s.current_calories = sumBy Entry.calories s.selected_foods ∧
  s.protein_sum = sumBy Entry.protein s.selected_foods ∧
  s.carbs_sum = sumBy Entry.carbs s.selected_foods ∧
  s.fats_sum = sumBy Entry.fats s.selected_foods ∧
  s.total_cost = sumBy Entry.price s.selected_foods

theorem sumBy_append (g : Entry → ℚ) (l : List Entry) (e : Entry) :
    sumBy g (l ++ [e]) = sumBy g l + g e := by
  simp [sumBy]

theorem adjust_portion_for_age_le (base_portion age : ℚ)
    (h : base_portion ≤ 100) : adjust_portion_for_age base_portion age ≤ 100 := by
  unfold adjust_portion_for_age
  split
  · linarith
  · split
    · linarith
    · exact h

theorem portionFor_le_100 (food : Food) (t : ℚ) (s : LoopState) (age : ℚ) :
    portionFor food t s age ≤ 100 := by
  unfold portionFor
  apply adjust_portion_for_age_le
  split
  · exact min_le_left _ _
  · exact le_refl _

theorem acceptFood_attempts (s : LoopState) (food : Food) (ap : ℚ) :
    (acceptFood s food ap).attempts = s.attempts := rfl

theorem acceptFood_iters (s : LoopState) (food : Food) (ap : ℚ) :
    (acceptFood s food ap).iters = s.iters := rfl

theorem acceptFood_calories (s : LoopState) (food : Food) (ap : ℚ) :
    (acceptFood s food ap).current_calories =
      s.current_calories + (scaledEntry food ap).calories := rfl

theorem acceptFood_portions (s : LoopState) (food : Food) (ap : ℚ)
    (h1 : 10 ≤ ap) (h2 : ap ≤ 100)
    (hp : ∀ e ∈ s.selected_foods, 10 ≤ e.portion ∧ e.portion ≤ 100) :
    ∀ e ∈ (acceptFood s food ap).selected_foods, 10 ≤ e.portion ∧ e.portion ≤ 100 := by
  intro e he
  rcases List.mem_append.mp he with hm | hm
  · exact hp e hm
  · rcases List.mem_singleton.mp hm with rfl
    exact ⟨h1, h2⟩

theorem acceptFood_synced (s : LoopState) (food : Food) (ap : ℚ)
    (hs : Synced s) : Synced (acceptFood s food ap) := by
  obtain ⟨h1, h2, h3, h4, h5⟩ := hs
  unfold acceptFood
  refine ⟨?_, ?_, ?_, ?_, ?_⟩ <;>
    simp only [sumBy_append, h1, h2, h3, h4, h5]

theorem loopStep_attempts (mf : List Food) (t age : ℚ) (r : ℕ)
    (s s1 : LoopState) (b : Bool) (h : loopStep mf t age r s = (s1, b)) :
    s1.attempts = s.attempts := by
  simp only [loopStep] at h
  split at h
  · cases h; rfl
  · split at h
    · cases h; rfl
    · split at h <;>
        (cases h; exact acceptFood_attempts ..)

theorem loopStep_iters (mf : List Food) (t age : ℚ) (r : ℕ)
    (s s1 : LoopState) (b : Bool) (h : loopStep mf t age r s = (s1, b)) :
    s1.iters = s.iters := by
  simp only [loopStep] at h
  split at h
  · cases h; rfl
  · split at h
    · cases h; rfl
    · split at h <;>
        (cases h; exact acceptFood_iters ..)

theorem loopStep_calories (mf : List Food) (t age : ℚ) (r : ℕ)
    (s s1 : LoopState) (b : Bool) (h : loopStep mf t age r s = (s1, b))
    (hc : s.current_calories ≤ t * 1.1) :
    s1.current_calories ≤ t * 1.1 := by
  simp only [loopStep] at h
  split at h
  · cases h; exact hc
  · split at h
    · cases h; exact hc
    · rename_i hno
      push_neg at hno
      split at h <;>
        (cases h; rw [acceptFood_calories]; exact hno)

theorem loopStep_portions (mf : List Food) (t age : ℚ) (r : ℕ)
    (s s1 : LoopState) (b : Bool) (h : loopStep mf t age r s = (s1, b))
    (hp : ∀ e ∈ s.selected_foods, 10 ≤ e.portion ∧ e.portion ≤ 100) :
    ∀ e ∈ s1.selected_foods, 10 ≤ e.portion ∧ e.portion ≤ 100 := by
  simp only [loopStep] at h
  split at h
  · cases h; exact hp
  · rename_i hge
    push_neg at hge
    split at h
    · cases h; exact hp
    · split at h <;>
        (cases h
         exact acceptFood_portions _ _ _ hge (portionFor_le_100 ..) hp)

theorem loopStep_synced (mf : List Food) (t age : ℚ) (r : ℕ)
    (s s1 : LoopState) (b : Bool) (h : loopStep mf t age r s = (s1, b))
    (hs : Synced s) : Synced s1 := by
  simp only [loopStep] at h
  split at h
  · cases h; exact hs
  · split at h
    · cases h; exact hs
    · split at h <;>
        (cases h; exact acceptFood_synced _ _ _ hs)

/-! ## Loop-level invariants -/

theorem selectLoop_calories (mf : List Food) (t age : ℚ) (o : ℕ → ℕ)
    (s : LoopState) (hc : s.current_calories ≤ t * 1.1) :
    (selectLoop mf t age o s).current_calories ≤ t * 1.1 := by
  induction s using selectLoop.induct mf t age o with
  | case1 x hg s1 heq =>
    rw [selectLoop, dif_pos hg, heq]
    exact loopStep_calories mf t age (o x.attempts) x s1 true heq hc
  | case2 x hg s1 heq ih =>
    rw [selectLoop, dif_pos hg, heq]
    exact ih (loopStep_calories mf t age (o x.attempts) x s1 false heq hc)
  | case3 x hg =>
    rw [selectLoop, dif_neg hg]
    exact hc

theorem selectLoop_portions (mf : List Food) (t age : ℚ) (o : ℕ → ℕ)
    (s : LoopState)
    (hp : ∀ e ∈ s.selected_foods, 10 ≤ e.portion ∧ e.portion ≤ 100) :
    ∀ e ∈ (selectLoop mf t age o s).selected_foods,
      10 ≤ e.portion ∧ e.portion ≤ 100 := by
  induction s using selectLoop.induct mf t age o with
  | case1 x hg s1 heq =>
    rw [selectLoop, dif_pos hg, heq]
    exact loopStep_portions mf t age (o x.attempts) x s1 true heq hp
  | case2 x hg s1 heq ih =>
    rw [selectLoop, dif_pos hg, heq]
    exact ih (loopStep_portions mf t age (o x.attempts) x s1 false heq hp)
  | case3 x hg =>
    rw [selectLoop, dif_neg hg]
    exact hp

theorem selectLoop_synced (mf : List Food) (t age : ℚ) (o : ℕ → ℕ)
    (s : LoopState) (hs : Synced s) : Synced (selectLoop mf t age o s) := by
  induction s using selectLoop.induct mf t age o with
  | case1 x hg s1 heq =>
    rw [selectLoop, dif_pos hg, heq]
    exact loopStep_synced mf t age (o x.attempts) x s1 true heq hs
  | case2 x hg s1 heq ih =>
    rw [selectLoop, dif_pos hg, heq]
    exact ih (loopStep_synced mf t age (o x.attempts) x s1 false heq hs)
  | case3 x hg =>
    rw [selectLoop, dif_neg hg]
    exact hs

theorem selectLoop_iters (mf : List Food) (t age : ℚ) (o : ℕ → ℕ)
    (s : LoopState) :
    (selectLoop mf t age o s).iters ≤ s.iters + (max_attempts - s.attempts) := by
  induction s using selectLoop.induct mf t age o with
  | case1 x hg s1 heq =>
    rw [selectLoop, dif_pos hg, heq]
    have h1 := loopStep_iters mf t age (o x.attempts) x s1 true heq
    simp only [max_attempts] at *
    omega
  | case2 x hg s1 heq ih =>
    rw [selectLoop, dif_pos hg, heq]
    have h1 := loopStep_iters mf t age (o x.attempts) x s1 false heq
    have h2 := loopStep_attempts mf t age (o x.attempts) x s1 false heq
    simp only [max_attempts] at *
    omega
  | case3 x hg =>
    rw [selectLoop, dif_neg hg]
    omega

/-! ## Filter monotonicity lemmas -/

theorem filter_mono {p : Food → Bool} {l1 l2 : List Food} (h : l1 ⊆ l2) :
    l1.filter p ⊆ l2.filter p := by
  intro x hx
  rw [List.mem_filter] at hx ⊢
  exact ⟨h hx.1, hx.2⟩

theorem allergenFiltered_mono (allergies : List String) {l1 l2 : List Food}
    (h : l1 ⊆ l2) :
    allergenFiltered l1 allergies ⊆ allergenFiltered l2 allergies := by
  induction allergies generalizing l1 l2 with
  | nil => exact h
  | cons a rest ih =>
    simp only [allergenFiltered, List.foldl_cons] at *
    exact ih (filter_mono h)

theorem budgetFiltered_mono (budget_level : String) (hasPriceCol : Bool)
    {l1 l2 : List Food} (h : l1 ⊆ l2) :
    budgetFiltered l1 budget_level hasPriceCol ⊆
      budgetFiltered l2 budget_level hasPriceCol := by
  unfold budgetFiltered
  split
  · split
    · exact filter_mono h
    · split
      · exact filter_mono h
      · exact h
  · exact h

theorem dietFiltered_vegan_sub (rows : List Food) :
    dietFiltered rows "Vegan" ⊆ dietFiltered rows "Vegetarian" := by
  intro x hx
  have e1 : dietFiltered rows "Vegan" =
      rows.filter (fun f => f.diet_type == "Vegan") := rfl
  have e2 : dietFiltered rows "Vegetarian" =
      rows.filter (fun f => (["Vegan", "Vegetarian"] : List String).contains f.diet_type) := rfl
  rw [e1, List.mem_filter] at hx
  rw [e2, List.mem_filter]
  refine ⟨hx.1, ?_⟩
  have hd : x.diet_type = "Vegan" := by
    have := hx.2
    simpa [beq_iff_eq] using this
  rw [hd]
  rfl

theorem dietFiltered_veg_sub (rows : List Food) (pref : String)
    (h1 : pref ≠ "Vegan") (h2 : pref ≠ "Vegetarian") :
    dietFiltered rows "Vegetarian" ⊆ dietFiltered rows pref := by
  intro x hx
  have e2 : dietFiltered rows pref = rows := by
    unfold dietFiltered
    rw [if_neg h1, if_neg h2]
  rw [e2]
  have e1 : dietFiltered rows "Vegetarian" =
      rows.filter (fun f => (["Vegan", "Vegetarian"] : List String).contains f.diet_type) := rfl
  rw [e1, List.mem_filter] at hx
  exact hx.1

/-! ## Claim theorems -/

/-- Claim C1: for every call to the meal composer on a non-empty candidate
catalog with a positive calorie target, the aggregate calories of the
returned meal never exceed `targetCalories * 1.1`: the overshoot-rejection
rule keeps the running total at or below 110% of target through every
iteration, for every randomness oracle. -/
theorem C1_meal_calories_within_overshoot_cap (filtered_foods : List Food)
    (target_calories : ℚ) (meal_type : String) (age : ℚ)
    (activity_level regional_preference : String) (oracle : ℕ → ℕ)
    (hne : filtered_foods ≠ []) (hpos : 0 < target_calories) :
    (select_foods_for_meal filtered_foods target_calories meal_type age
      activity_level regional_preference oracle).calories ≤
      target_calories * 1.1 := by
  simp only [select_foods_for_meal]
  apply selectLoop_calories
  show (0 : ℚ) ≤ target_calories * 1.1
  linarith

/-- Witness for C1 at a concrete input. -/
theorem C1_witness :
    [appleRow] ≠ [] ∧ (0 : ℚ) < 200 ∧
    (select_foods_for_meal [appleRow] 200 "Breakfast" 30 "Sedentary" "Indian"
      (fun _ => 0)).calories ≤ 200 * 1.1 :=
  ⟨List.cons_ne_nil _ _, by norm_num,
    C1_meal_calories_within_overshoot_cap [appleRow] 200 "Breakfast" 30
      "Sedentary" "Indian" (fun _ => 0) (List.cons_ne_nil _ _) (by norm_num)⟩

/-- Claim C3: the selection loop of `select_foods_for_meal` terminates on
every input with a non-empty candidate catalog, executing its body at most
50 times: every continuing iteration consumes one attempt from the fixed
budget of `max_attempts = 50`, and the only iteration that does not
(an accepting iteration meeting the success condition) ends the loop. -/
theorem C3_select_loop_runs_at_most_50_iterations (filtered_foods : List Food)
    (target_calories : ℚ) (meal_type : String) (age : ℚ)
    (activity_level regional_preference : String) (oracle : ℕ → ℕ)
    (hne : filtered_foods ≠ []) :
    selectIters filtered_foods target_calories meal_type age activity_level
      regional_preference oracle ≤ 50 := by
  simp only [selectIters]
  have h := selectLoop_iters
    (sortMealFoods
      (if (mealTypeFiltered filtered_foods meal_type).length = 0 then filtered_foods
       else mealTypeFiltered filtered_foods meal_type)
      regional_preference activity_level)
    target_calories age oracle initState
  simpa [initState, max_attempts] using h

/-- Witness for C3 at a concrete input. -/
theorem C3_witness :
    [appleRow] ≠ [] ∧
    selectIters [appleRow] 200 "Breakfast" 30 "Sedentary" "Indian"
      (fun _ => 0) ≤ 50 :=
  ⟨List.cons_ne_nil _ _,
    C3_select_loop_runs_at_most_50_iterations [appleRow] 200 "Breakfast" 30
      "Sedentary" "Indian" (fun _ => 0) (List.cons_ne_nil _ _)⟩

/-- Claim C5: every entry of every meal returned by
`select_foods_for_meal` has a scaled portion of at least 10 units and at
most the 100-unit catalog base portion: the portion formula caps at the
base portion, the age factor only shrinks it, and sub-10 portions are
rejected before acceptance. -/
theorem C5_portions_within_bounds (filtered_foods : List Food)
    (target_calories : ℚ) (meal_type : String) (age : ℚ)
    (activity_level regional_preference : String) (oracle : ℕ → ℕ) :
    List.Forall (fun e => 10 ≤ e.portion ∧ e.portion ≤ 100)
      (select_foods_for_meal filtered_foods target_calories meal_type age
        activity_level regional_preference oracle).foods := by
  rw [List.forall_iff_forall_mem]
  simp only [select_foods_for_meal]
  apply selectLoop_portions
  intro e he
  simp [initState] at he

/-- Claim C6: in exact arithmetic, the aggregate `calories` field of any
meal returned by `select_foods_for_meal` equals the sum of its entries'
scaled calories, and likewise the aggregate protein, carbs, fats and cost
fields equal the corresponding sums over the entries. -/
theorem C6_aggregates_equal_entry_sums (filtered_foods : List Food)
    (target_calories : ℚ) (meal_type : String) (age : ℚ)
    (activity_level regional_preference : String) (oracle : ℕ → ℕ) :
    (select_foods_for_meal filtered_foods target_calories meal_type age
        activity_level regional_preference oracle).calories =
      sumBy Entry.calories (select_foods_for_meal filtered_foods target_calories
        meal_type age activity_level regional_preference oracle).foods ∧
    (select_foods_for_meal filtered_foods target_calories meal_type age
        activity_level regional_preference oracle).macros.protein =
      sumBy Entry.protein (select_foods_for_meal filtered_foods target_calories
        meal_type age activity_level regional_preference oracle).foods ∧
    (select_foods_for_meal filtered_foods target_calories meal_type age
        activity_level regional_preference oracle).macros.carbs =
      sumBy Entry.carbs (select_foods_for_meal filtered_foods target_calories
        meal_type age activity_level regional_preference oracle).foods ∧
    (select_foods_for_meal filtered_foods target_calories meal_type age
        activity_level regional_preference oracle).macros.fats =
      sumBy Entry.fats (select_foods_for_meal filtered_foods target_calories
        meal_type age activity_level regional_preference oracle).foods ∧
    (select_foods_for_meal filtered_foods target_calories meal_type age
        activity_level regional_preference oracle).cost =
      sumBy Entry.price (select_foods_for_meal filtered_foods target_calories
        meal_type age activity_level regional_preference oracle).foods := by
  simp only [select_foods_for_meal]
  exact selectLoop_synced _ _ _ _ _ ⟨rfl, rfl, rfl, rfl, rfl⟩

/-- Claim C9: for a fixed catalog and identical allergy and budget
criteria, the Vegan output of `filter_foods_by_preferences` is a subset of
the Vegetarian output, which is a subset of the output under any dietary
preference that imposes no diet restriction (anything other than Vegan and
Vegetarian). -/
theorem C9_diet_filter_subset_chain (food_data : List Food)
    (allergies : List String) (budget_level : String) (hasPriceCol : Bool)
    (pref : String) (h1 : pref ≠ "Vegan") (h2 : pref ≠ "Vegetarian") :
    filter_foods_by_preferences food_data "Vegan" allergies budget_level hasPriceCol ⊆
      filter_foods_by_preferences food_data "Vegetarian" allergies budget_level hasPriceCol ∧
    filter_foods_by_preferences food_data "Vegetarian" allergies budget_level hasPriceCol ⊆
      filter_foods_by_preferences food_data pref allergies budget_level hasPriceCol := by
  unfold filter_foods_by_preferences
  constructor
  · exact budgetFiltered_mono _ _
      (allergenFiltered_mono _ (dietFiltered_vegan_sub food_data))
  · exact budgetFiltered_mono _ _
      (allergenFiltered_mono _ (dietFiltered_veg_sub food_data pref h1 h2))

/-- Witness for C9 at a concrete input. -/
theorem C9_witness :
    ("Non-Vegetarian" : String) ≠ "Vegan" ∧
    (filter_foods_by_preferences [appleRow] "Vegan" [] "High" true ⊆
      filter_foods_by_preferences [appleRow] "Vegetarian" [] "High" true ∧
    filter_foods_by_preferences [appleRow] "Vegetarian" [] "High" true ⊆
      filter_foods_by_preferences [appleRow] "Non-Vegetarian" [] "High" true) :=
  ⟨by decide,
    C9_diet_filter_subset_chain [appleRow] [] "High" true "Non-Vegetarian"
      (by decide) (by decide)⟩

/-- Claim C10: an item whose allergen cell is missing (NaN) is never
removed by the allergen stage of `filter_foods_by_preferences`, whatever
the allergy exclusion list: `str.contains(..., na=False)` is false on NaN,
so such rows pass every allergen pass and reach the budget stage. -/
theorem C10_nan_allergens_never_removed (rows : List Food)
    (allergies : List String) (f : Food) (hna : f.allergens = none)
    (hmem : f ∈ rows) : f ∈ allergenFiltered rows allergies := by
  induction allergies generalizing rows with
  | nil => exact hmem
  | cons a rest ih =>
    simp only [allergenFiltered, List.foldl_cons] at *
    apply ih
    rw [List.mem_filter]
    refine ⟨hmem, ?_⟩
    rw [hna]
    rfl

/-- Witness for C10 at a concrete input. -/
theorem C10_witness :
    appleRow.allergens = none ∧ appleRow ∈ [appleRow] ∧
    appleRow ∈ allergenFiltered [appleRow] ["nuts", "dairy"] :=
  ⟨rfl, List.mem_singleton.mpr rfl,
    C10_nan_allergens_never_removed [appleRow] ["nuts", "dairy"] appleRow rfl
      (List.mem_singleton.mpr rfl)⟩

/-- Claim C2 counterexample: an item whose price cell is missing is NOT
retained by the budget filter at the Low or Medium budget levels — the
pandas comparison `NaN <= threshold` is false, so the row is dropped,
contradicting the claim that missing-price items always pass price
filtering at every budget level. -/
theorem C2_counterexample :
    filter_foods_by_preferences [mysteryRow] "Non-Vegetarian" [] "Low" true = [] ∧
    filter_foods_by_preferences [mysteryRow] "Non-Vegetarian" [] "Medium" true = [] :=
  ⟨rfl, rfl⟩

/-- Claim C2 as amended: an item with a missing (NaN) price cell survives
the budget stage exactly when it was in the input and the budget level is
neither Low nor Medium (so under High it is always retained, while Low and
Medium always drop it). -/
theorem C2_amended_nan_price_budget (rows : List Food) (budget_level : String)
    (f : Food) (hf : f.price_inr = none) :
    (f ∈ budgetFiltered rows budget_level true ↔
      f ∈ rows ∧ budget_level ≠ "Low" ∧ budget_level ≠ "Medium") := by
  unfold budgetFiltered
  by_cases hL : budget_level = "Low"
  · subst hL
    simp [List.mem_filter, priceLeB, hf]
  · by_cases hM : budget_level = "Medium"
    · subst hM
      simp [List.mem_filter, priceLeB, hf]
    · simp [hL, hM]

/-- Witness for the amended C2 at a concrete input. -/
theorem C2_witness :
    mysteryRow.price_inr = none ∧
    (mysteryRow ∈ budgetFiltered [mysteryRow] "High" true ↔
      mysteryRow ∈ [mysteryRow] ∧ ("High" : String) ≠ "Low" ∧ ("High" : String) ≠ "Medium") :=
  ⟨rfl, C2_amended_nan_price_budget [mysteryRow] "High" mysteryRow rfl⟩

/-- Claim C4: `generate_diet_plan` returns the `None` failure value
exactly when the catalog filtered by the diet, allergy and budget criteria
is empty, and for every non-empty filtered catalog it returns a plan with
one meal per distribution slot (the slot names of the plan are exactly the
slot names of the age-bracket distribution, in order). -/
theorem C4_none_iff_empty_filter (food_data : List Food) (hasPriceCol : Bool)
    (daily_calories age : ℚ) (dietary_preference : String)
    (allergies : List String)
    (activity_level budget_level regional_preference : String)
    (oracle : String → ℕ → ℕ) :
    (generate_diet_plan food_data hasPriceCol daily_calories age
        dietary_preference allergies activity_level budget_level
        regional_preference oracle = none ↔
      filter_foods_by_preferences food_data dietary_preference allergies
        budget_level hasPriceCol = []) ∧
    Option.map (fun p => p.meals.map Prod.fst)
        (generate_diet_plan food_data hasPriceCol daily_calories age
          dietary_preference allergies activity_level budget_level
          regional_preference oracle) =
      (if filter_foods_by_preferences food_data dietary_preference allergies
          budget_level hasPriceCol = [] then none
       else some ((meal_distribution age).map Prod.fst)) := by
  simp only [generate_diet_plan]
  by_cases hE : filter_foods_by_preferences food_data dietary_preference
      allergies budget_level hasPriceCol = []
  · simp [hE]
  · have hlen : ¬(filter_foods_by_preferences food_data dietary_preference
        allergies budget_level hasPriceCol).length = 0 := by
      simpa [List.length_eq_zero] using hE
    simp [hlen, hE, List.map_map, Function.comp]

/-- Claim C7 counterexample: the spec's scenario numbers are wrong — for
weight 70, height 170, age 30, Male, the code returns
10·70 + 6.25·170 − 5·30 + 5 = 1617.5, not 1367.5, and the Sedentary
Maintain daily calories are 1617.5 × 1.2 = 1941.0, not 1641.0. -/
theorem C7_counterexample :
    calculate_bmr 70 170 30 "Male" ≠ 1367.5 ∧
    calculate_daily_calories (calculate_bmr 70 170 30 "Male") "Sedentary"
      "Maintain Weight" ≠ some 1641 := by
  constructor
  · norm_num [calculate_bmr]
  · norm_num [calculate_bmr, calculate_daily_calories, activity_multiplier]
    decide

/-- Claim C7 as amended: `calculate_bmr` computes
`10·weight + 6.25·height − 5·age` plus a gender intercept of +5 for Male,
−161 for Female and −78 for any other gender; for weight 70, height 170,
age 30, Male it returns 1617.5, and `calculate_daily_calories` on that BMR
with Sedentary activity and the Maintain goal returns 1941.0. -/
theorem C7_amended_bmr_formula :
    (∀ w h a : ℚ, calculate_bmr w h a "Male" = 10 * w + 6.25 * h - 5 * a + 5) ∧
    (∀ w h a : ℚ, calculate_bmr w h a "Female" = 10 * w + 6.25 * h - 5 * a - 161) ∧
    (∀ (w h a : ℚ) (g : String), g ≠ "Male" → g ≠ "Female" →
      calculate_bmr w h a g = 10 * w + 6.25 * h - 5 * a - 78) ∧
    calculate_bmr 70 170 30 "Male" = 1617.5 ∧
    calculate_daily_calories (calculate_bmr 70 170 30 "Male") "Sedentary"
      "Maintain Weight" = some 1941 := by
  refine ⟨?_, ?_, ?_, ?_, ?_⟩
  · intro w h a
    simp [calculate_bmr]
  · intro w h a
    simp [calculate_bmr]
  · intro w h a g hg1 hg2
    unfold calculate_bmr
    rw [if_neg hg1, if_neg hg2]
  · norm_num [calculate_bmr]
  · norm_num [calculate_bmr, calculate_daily_calories, activity_multiplier]
    decide

/-- Witness for the amended C7 at a concrete input. -/
theorem C7_witness :
    calculate_bmr 80 160 40 "Other" = 10 * 80 + 6.25 * 160 - 5 * 40 - 78 :=
  C7_amended_bmr_formula.2.2.1 80 160 40 "Other" (by decide) (by decide)

theorem select_foods_effect_frame (cat : Catalog) (fr : List Food)
    (al : Bool) (mt rp : String) :
    (select_foods_effect cat fr al mt rp).rows = cat.rows ∧
    (select_foods_effect cat fr al mt rp).hasPriceCol = cat.hasPriceCol := by
  unfold select_foods_effect
  split
  · exact ⟨rfl, rfl⟩
  · exact ⟨rfl, rfl⟩

theorem effect_foldl_frame (fr : List Food) (al : Bool) (rp : String)
    (slots : List (String × ℚ)) (c : Catalog) :
    (slots.foldl (fun c slot =>
        select_foods_effect c fr al (mealTypeOf slot.1) rp) c).rows = c.rows ∧
    (slots.foldl (fun c slot =>
        select_foods_effect c fr al (mealTypeOf slot.1) rp) c).hasPriceCol =
      c.hasPriceCol := by
  induction slots generalizing c with
  | nil => exact ⟨rfl, rfl⟩
  | cons a rest ih =>
    simp only [List.foldl_cons]
    obtain ⟨h1, h2⟩ := ih (select_foods_effect c fr al (mealTypeOf a.1) rp)
    obtain ⟨g1, g2⟩ := select_foods_effect_frame c fr al (mealTypeOf a.1) rp
    exact ⟨h1.trans g1, h2.trans g2⟩

/-- Claim C8 counterexample: `generate_diet_plan` CAN mutate the shared
catalog object.  With a non-vegetarian preference, no allergies and no
price-based budget rebuild, `filter_foods_by_preferences` returns the
catalog DataFrame itself; when a slot's meal-type sub-filter is then empty
(here every `meal_type` cell is NaN), `select_foods_for_meal` falls back
to that aliased frame and writes the derived `is_indian` column onto it,
so the catalog object observably changes. -/
theorem C8_counterexample :
    generate_diet_plan_effect staleCatalog 30 "Non-Vegetarian" [] "High"
      "Indian" ≠ staleCatalog := by
  decide

/-- Claim C8 as amended: plan generation never adds, removes or alters
catalog rows or cell values (and never touches the price column's
presence) — the rows list and price-column flag are preserved on every
input — but it does not leave the catalog object entirely unchanged: the
derived `is_indian` flag column can be written onto the shared catalog
when the filter stage returns the catalog aliased and a slot's meal-type
sub-filter is empty under the Indian regional preference. -/
theorem C8_amended_rows_never_mutated (cat : Catalog) (age : ℚ)
    (dietary_preference : String) (allergies : List String)
    (budget_level regional_preference : String) :
    (generate_diet_plan_effect cat age dietary_preference allergies
        budget_level regional_preference).rows = cat.rows ∧
    (generate_diet_plan_effect cat age dietary_preference allergies
        budget_level regional_preference).hasPriceCol = cat.hasPriceCol := by
  simp only [generate_diet_plan_effect]
  split
  · exact ⟨rfl, rfl⟩
  · exact effect_foldl_frame _ _ _ _ _
